import Mathlib

/-!
Verification of the pushshift MCP bridge (`src/api/pushshift-bridge.ts`).

The handler is a single synchronous pipeline: method check, configuration
check, shared-secret authentication, JSON body parsing, zod schema
validation, one upstream POST, error classification and response
normalisation.  We embed the JavaScript values flowing through the handler
as a `Json` inductive (JSON.parse output: JS `undefined` never occurs
inside a parsed document, so `Option Json` models a possibly-undefined
JS expression such as a property access), and the handler itself as a pure
function from the request, the configuration and the awaited upstream
outcome to the HTTP response.
-/

/-- A JSON value as produced by `JSON.parse` / `response.json()`.
Numbers are modelled as rationals so that the zod `.int()` check
(`Number.isInteger` on a float) is representable. -/
inductive Json where
  | null : Json
  | bool : Bool → Json
  | num : ℚ → Json
  | str : String → Json
  | arr : List Json → Json
  | obj : List (String × Json) → Json
deriving Repr

namespace Json

/-- JS property access `v.k` (or `v?.k` on a non-nullish `v`): an object
yields the bound value or `undefined` (`none`); any non-object JSON value
yields `undefined` for the field names this handler reads. -/
def jsGet (v : Json) (k : String) : Option Json :=
  match v with
  | .obj fields => (fields.find? (fun p => p.1 == k)).map (fun p => p.2)
  | _ => none

/-- A JS expression value is nullish when it is `undefined` or `null`. -/
def isNullish : Option Json → Bool
  | none => true
  | some .null => true
  | some _ => false

/-- JS nullish coalescing `a ?? b` on possibly-undefined values. -/
def jsCoalesce (a b : Option Json) : Option Json :=
  if isNullish a then b else a

end Json

/-- Decimal rendering of an integer, as JS `String(n)` produces. -/
def intToDecimal (n : ℤ) : String :=
  toString n

/-- Rendering of a JSON number under JS string coercion.  Integral values
render as their decimal form; for non-integral values the exact JS float
formatting is outside this rational model, rendered here as `num/den`. -/
def ratToText (q : ℚ) : String :=
  if q.den = 1 then intToDecimal q.num else intToDecimal q.num ++ "/" ++ toString q.den

mutual
/-- JS string coercion `String(v)` of a (non-undefined) JSON value:
`null` renders as "null", booleans as "true"/"false", strings unchanged,
plain objects as "[object Object]", and arrays join their elements with
commas, a `null` element contributing the empty string. -/
def jsToString : Json → String
  | .null => "null"
  | .bool b => cond b "true" "false"
  | .num q => ratToText q
  | .str s => s
  | .obj _ => "[object Object]"
  | .arr xs => String.intercalate "," (jsArrParts xs)

/-- Element-wise string coercion used by JS `Array.prototype.toString`. -/
def jsArrParts : List Json → List String
  | [] => []
  | .null :: rest => "" :: jsArrParts rest
  | x :: rest => jsToString x :: jsArrParts rest
end

/-- The `NormalisedComment` output record of the bridge. `none` models the
JSON `null` absent-marker of the nullable fields. -/
structure NormalisedComment where
  id : String
  author : Option String
  body : String
  score : Option ℚ
  created_utc : Option ℚ
  permalink : Option String
  subreddit : Option String
deriving Repr

open Json in
/-- The field-by-field computation of the arrow function passed to
`rawComments.map`: every output field reads its source field(s) with the
explicit fallback written in the source. -/
def normaliseFields (c : Json) : NormalisedComment :=
      { id := jsToString ((jsCoalesce (jsGet c "id") (some (.str ""))).getD .null)
        author :=
          match jsGet c "author" with
          | none => none
          | some .null => none
          | some v => some (jsToString v)
        body :=
          jsToString
            ((jsCoalesce (jsGet c "body")
              (jsCoalesce (jsGet c "selftext") (some (.str "")))).getD .null)
        score :=
          match jsGet c "score" with
          | some (.num q) => some q
          | _ => none
        created_utc :=
          match jsGet c "created_utc" with
          | some (.num q) => some q
          | _ =>
            match jsGet c "created" with
            | some (.num q) => some q
            | _ => none
        permalink :=
          match jsGet c "permalink" with
          | none => none
          | some .null => none
          | some v => some (jsToString v)
        subreddit :=
          match jsGet c "subreddit" with
          | none => none
          | some .null => none
          | some v => some (jsToString v) }

/-- One step of `rawComments.map((c) => ({...}))`.  JS property access on
`null` throws a TypeError, which the surrounding `try` turns into the
generic 500 response, so the map is fallible exactly on a `null` item;
every other JSON item maps totally via `normaliseFields`. -/
def normaliseItem (c : Json) : Except String NormalisedComment :=
  match c with
  | .null => .error "Cannot read properties of null"
  | _ => .ok (normaliseFields c)

open Json in
/-- `upstreamJson?.comments ?? upstreamJson?.data ?? upstreamJson?.results ?? []`:
nullish-coalescing selection of the raw item container.  The result is a JS
value, not necessarily an array. -/
def rawComments (upstreamJson : Json) : Json :=
  ((jsCoalesce (jsGet upstreamJson "comments")
    (jsCoalesce (jsGet upstreamJson "data")
      (jsCoalesce (jsGet upstreamJson "results") (some (.arr []))))).getD .null)

/-- `rawComments.map(...)` over the items, aborting at the first item whose
mapping throws. -/
def normaliseList : List Json → Except String (List NormalisedComment)
  | [] => .ok []
  | c :: rest => do
    let r ← normaliseItem c
    let rs ← normaliseList rest
    .ok (r :: rs)

/-- The full normalisation step of the handler: `.map` on a non-array
`rawComments` value throws (`rawComments.map is not a function`), which the
surrounding `try` turns into the generic 500 response. -/
def normalise (upstreamJson : Json) : Except String (List NormalisedComment) :=
  match rawComments upstreamJson with
  | .arr xs => normaliseList xs
  | _ => .error "rawComments.map is not a function"

/-! ## Request validation (`RequestSchema.safeParse`) -/

/-- One entry of `parsed.error.issues`: the path of the offending field and
a human-readable reason, as zod reports them. -/
structure Issue where
  path : List String
  message : String
deriving Repr, DecidableEq

/-- The validated request body (`z.infer<typeof RequestSchema>`). -/
structure RequestBody where
  subreddit : String
  query : String
  size : ℤ
  before : Option ℤ
  after : Option ℤ
deriving Repr

open Json in
/-- zod check for `z.string().min(1)` at a required field: missing or
non-string values are type errors, the empty string violates `min(1)`. -/
def checkNonEmptyString (field : String) (v : Option Json) : Except (List Issue) String :=
  match v with
  | none => .error [⟨[field], "Required"⟩]
  | some (.str s) =>
    if s.length ≥ 1 then .ok s
    else .error [⟨[field], "String must contain at least 1 character(s)"⟩]
  | some _ => .error [⟨[field], "Expected string"⟩]

open Json in
/-- zod check for `z.number().int().min(1).max(500).default(50)`: an absent
field takes the default; a non-number is a type error; a number accumulates
one issue per failing refinement (`int`, `min`, `max`). -/
def checkSize (v : Option Json) : Except (List Issue) ℤ :=
  match v with
  | none => .ok 50
  | some (.num q) =>
    let issues : List Issue :=
      (if q.den = 1 then [] else [⟨["size"], "Expected integer, received float"⟩])
        ++ (if q < 1 then [⟨["size"], "Number must be greater than or equal to 1"⟩] else [])
        ++ (if q > 500 then [⟨["size"], "Number must be less than or equal to 500"⟩] else [])
    if issues.isEmpty then .ok q.num else .error issues
  | some _ => .error [⟨["size"], "Expected number"⟩]

open Json in
/-- zod check for `z.number().int().optional()` at `before`/`after`. -/
def checkOptionalInt (field : String) (v : Option Json) : Except (List Issue) (Option ℤ) :=
  match v with
  | none => .ok none
  | some (.num q) =>
    if q.den = 1 then .ok (some q.num)
    else .error [⟨[field], "Expected integer, received float"⟩]
  | some _ => .error [⟨[field], "Expected number"⟩]

/-- The issues carried by a failed check, empty on success. -/
def issuesOf {α : Type} : Except (List Issue) α → List Issue
  | .ok _ => []
  | .error is => is

open Json in
/-- `RequestSchema.safeParse(rawBody)`: a non-object body is a single
top-level type issue; an object runs every field check and either yields
the typed body or the concatenation of all field issues. -/
def parseRequest (j : Json) : Except (List Issue) RequestBody :=
  match j with
  | .obj _ =>
    let rs := checkNonEmptyString "subreddit" (jsGet j "subreddit")
    let rq := checkNonEmptyString "query" (jsGet j "query")
    let rz := checkSize (jsGet j "size")
    let rb := checkOptionalInt "before" (jsGet j "before")
    let ra := checkOptionalInt "after" (jsGet j "after")
    match rs, rq, rz, rb, ra with
    | .ok s, .ok q, .ok z, .ok b, .ok a => .ok ⟨s, q, z, b, a⟩
    | _, _, _, _, _ =>
      .error (issuesOf rs ++ issuesOf rq ++ issuesOf rz ++ issuesOf rb ++ issuesOf ra)
  | _ => .error [⟨[], "Expected object"⟩]

/-! ## The handler -/

/-- The two process-wide secrets: `none` models an unset environment
variable, `some ""` an empty one (both falsy in the configuration check). -/
structure Config where
  bridgeUrl : Option String
  apiKey : Option String

/-- A JS string (environment variable or header value) that may be absent;
`!v` in the source is true exactly when it is absent or empty. -/
def strFalsy : Option String → Bool
  | none => true
  | some s => s = ""

/-- The inbound request as the handler reads it: the method, the
`x-mcp-key` header (`none` when `headers.get` returns `null`), and the
outcome of `request.json()` (`.error` when the body is not valid JSON). -/
structure InboundRequest where
  method : String
  mcpKey : Option String
  body : Except String Json

/-- The awaited outcome of the single outbound `fetch`: either the promise
rejected (network failure, caught by the outer `try` with its message), or
a response with a status, its text (a list of UTF-16 units, read in the
non-ok branch) and the outcome of `upstream.json()` (read in the ok
branch, `.error` when the upstream body is not valid JSON). -/
inductive UpstreamOutcome where
  | networkError : String → UpstreamOutcome
  | response : Nat → List Char → Except String Json → UpstreamOutcome

/-- `Response.ok` of the Fetch API: status in the range 200–299. -/
def statusOk (status : Nat) : Bool :=
  200 ≤ status && status ≤ 299

/-- Serialisation of one zod issue into the error response body. -/
def issueToJson (i : Issue) : Json :=
  .obj [("path", .arr (i.path.map Json.str)), ("message", .str i.message)]

/-- Serialisation of a `NormalisedComment` into the success response body:
always the same seven keys, a `none` field rendered as JSON `null`. -/
def commentToJson (r : NormalisedComment) : Json :=
  .obj
    [ ("id", .str r.id)
    , ("author", (r.author.map Json.str).getD .null)
    , ("body", .str r.body)
    , ("score", (r.score.map Json.num).getD .null)
    , ("created_utc", (r.created_utc.map Json.num).getD .null)
    , ("permalink", (r.permalink.map Json.str).getD .null)
    , ("subreddit", (r.subreddit.map Json.str).getD .null) ]

/-- An HTTP response of the handler: status code and JSON body. -/
structure HttpResponse where
  status : Nat
  body : Json
deriving Repr

/-- `{ error: msg }` error bodies. -/
def errBody (msg : String) : Json :=
  .obj [("error", .str msg)]

/-- The 502 body: upstream status and the first 500 units of its text. -/
def upstreamErrBody (status : Nat) (detail : String) : Json :=
  .obj
    [ ("error", .str "Upstream Pushshift bridge error.")
    , ("status", .num status)
    , ("detail", .str detail) ]

/-- The 400 body carrying `parsed.error.issues`. -/
def invalidBody (issues : List Issue) : Json :=
  .obj [("error", .str "Invalid request body."), ("issues", .arr (issues.map issueToJson))]

/-- The 200 body: `{ ok: true, count, comments }`. -/
def successBody (comments : List NormalisedComment) : Json :=
  .obj
    [ ("ok", .bool true)
    , ("count", .num comments.length)
    , ("comments", .arr (comments.map commentToJson)) ]

/-- The 500 catch-all body with the thrown error's message. -/
def unexpectedBody (detail : String) : Json :=
  .obj [("error", .str "Unexpected server error."), ("detail", .str detail)]

/-- The exported `fetch` handler, stage by stage in source order.  The
upstream call's outcome is passed in (the call happens only if every
earlier stage passed, which the embedding expresses by the result not
depending on `up` on any earlier-rejecting input).  Exceptions thrown
inside the `try` (body-parse failure of the upstream response, a `.map`
on a non-array container, a property access on a `null` item, a rejected
outbound promise) surface as the 500 catch-all with their message. -/
def handler (cfg : Config) (req : InboundRequest) (up : UpstreamOutcome) : HttpResponse :=
  if req.method ≠ "POST" then
    ⟨405, errBody "Method not allowed. Use POST."⟩
  else if strFalsy cfg.bridgeUrl then
    ⟨500, errBody "PUSHSHIFT_BRIDGE_URL is not configured on the server."⟩
  else if strFalsy cfg.apiKey then
    ⟨500, errBody "PUSHSHIFT_MCP_KEY is not configured on the server."⟩
  else if strFalsy req.mcpKey || req.mcpKey ≠ cfg.apiKey then
    ⟨401, errBody "Unauthorised."⟩
  else
    match req.body with
    | .error _ => ⟨400, errBody "Request body must be valid JSON."⟩
    | .ok rawBody =>
      match parseRequest rawBody with
      | .error issues => ⟨400, invalidBody issues⟩
      | .ok _ =>
        match up with
        | .networkError msg => ⟨500, unexpectedBody msg⟩
        | .response status text upstreamJson =>
          if ¬ statusOk status then
            ⟨502, upstreamErrBody status ⟨text.take 500⟩⟩
          else
            match upstreamJson with
            | .error msg => ⟨500, unexpectedBody msg⟩
            | .ok payload =>
              match normalise payload with
              | .error msg => ⟨500, unexpectedBody msg⟩
              | .ok comments => ⟨200, successBody comments⟩

/-! ## Shared example inputs -/

/-- A schema-valid request body used to drive the handler in examples. -/
def validBodyEx : Json :=
  Json.obj [("subreddit", Json.str "movies"), ("query", Json.str "oscars")]

/-- A fully-configured deployment used to drive the handler in examples. -/
def cfgEx : Config :=
  ⟨some "https://bridge.example", some "sekrit"⟩

/-- A POST request with the matching key and a valid body. -/
def reqEx : InboundRequest :=
  ⟨"POST", some "sekrit", .ok validBodyEx⟩

/-! ## Basic lemmas about the JS value operations -/

lemma isNullish_some_of_ne_null {v : Json} (h : v ≠ Json.null) :
    Json.isNullish (some v) = false := by
  cases v <;> first | exact absurd rfl h | rfl

lemma jsCoalesce_of_ne_null {v : Json} (h : v ≠ Json.null) (b : Option Json) :
    Json.jsCoalesce (some v) b = some v := by
  simp [Json.jsCoalesce, isNullish_some_of_ne_null h]

lemma jsCoalesce_of_nullish {a : Option Json} (h : Json.isNullish a = true) (b : Option Json) :
    Json.jsCoalesce a b = b := by
  simp [Json.jsCoalesce, h]

lemma normaliseItem_ok_iff {c : Json} {r : NormalisedComment} :
    normaliseItem c = .ok r ↔ c ≠ Json.null ∧ r = normaliseFields c := by
  cases c <;> simp [normaliseItem, eq_comm]

lemma normaliseList_ok_iff {xs : List Json} {rs : List NormalisedComment} :
    normaliseList xs = .ok rs ↔
      (∀ c ∈ xs, c ≠ Json.null) ∧ rs = xs.map normaliseFields := by
  induction xs generalizing rs with
  | nil => simp [normaliseList, eq_comm]
  | cons x xs ih =>
    constructor
    · intro h
      rw [normaliseList] at h
      cases hx : normaliseItem x with
      | error e => rw [hx] at h; simp [Bind.bind, Except.bind] at h
      | ok r =>
        rw [hx] at h
        cases hrest : normaliseList xs with
        | error e => rw [hrest] at h; simp [Bind.bind, Except.bind] at h
        | ok rest =>
          rw [hrest] at h
          simp [Bind.bind, Except.bind] at h
          obtain ⟨hxn, hr⟩ := normaliseItem_ok_iff.mp hx
          obtain ⟨h1, h2⟩ := ih.mp hrest
          refine ⟨?_, ?_⟩
          · intro c hc
            rcases List.mem_cons.mp hc with rfl | hc
            · exact hxn
            · exact h1 c hc
          · rw [← h, hr, h2]
            rfl
    · rintro ⟨h1, rfl⟩
      have hxn : x ≠ Json.null := h1 x (List.mem_cons_self x xs)
      have hx : normaliseItem x = .ok (normaliseFields x) :=
        normaliseItem_ok_iff.mpr ⟨hxn, rfl⟩
      have hrest : normaliseList xs = .ok (xs.map normaliseFields) :=
        ih.mpr ⟨fun c hc => h1 c (List.mem_cons_of_mem x hc), rfl⟩
      rw [normaliseList, hx, hrest]
      rfl

/-! ## Claim C3: container priority -/

/-- C3: for every upstream payload holding both a list under `comments` and
a list under `data`, only the `comments` list is normalised; likewise, when
`comments` is nullish, a list under `data` wins over a list under
`results`. -/
theorem container_priority :
    (∀ (p : Json) (xs ys : List Json),
        p.jsGet "comments" = some (Json.arr xs) →
        p.jsGet "data" = some (Json.arr ys) →
        normalise p = normaliseList xs) ∧
    (∀ (p : Json) (xs ys : List Json),
        Json.isNullish (p.jsGet "comments") = true →
        p.jsGet "data" = some (Json.arr xs) →
        p.jsGet "results" = some (Json.arr ys) →
        normalise p = normaliseList xs) := by
  constructor
  · intro p xs ys h1 _h2
    have harr : (Json.arr xs) ≠ Json.null := by simp
    simp [normalise, rawComments, h1, jsCoalesce_of_ne_null harr]
  · intro p xs ys h0 h1 _h2
    have harr : (Json.arr xs) ≠ Json.null := by simp
    simp [normalise, rawComments, jsCoalesce_of_nullish h0, h1,
      jsCoalesce_of_ne_null harr]

/-- Witness for C3 at a concrete payload holding both containers. -/
theorem container_priority_witness :
    normalise (Json.obj [("comments", Json.arr [Json.num 1]), ("data", Json.arr [])]) =
      normaliseList [Json.num 1] :=
  container_priority.1
    (Json.obj [("comments", Json.arr [Json.num 1]), ("data", Json.arr [])])
    [Json.num 1] [] rfl rfl

/-! ## Claim C4: body field fallback -/

/-- C4: the normalised `body` is the item's `body` field coerced to text
when that field is present and non-null, else the `selftext` field coerced
to text when present and non-null, else the empty string. -/
theorem body_field_fallback :
    ∀ (c : Json) (r : NormalisedComment), normaliseItem c = .ok r →
      (∀ v, c.jsGet "body" = some v → v ≠ Json.null → r.body = jsToString v) ∧
      (Json.isNullish (c.jsGet "body") = true →
        ∀ v, c.jsGet "selftext" = some v → v ≠ Json.null → r.body = jsToString v) ∧
      (Json.isNullish (c.jsGet "body") = true →
        Json.isNullish (c.jsGet "selftext") = true → r.body = "") := by
  intro c r h
  obtain ⟨_hc, rfl⟩ := normaliseItem_ok_iff.mp h
  refine ⟨?_, ?_, ?_⟩
  · intro v hv hvn
    simp [normaliseFields, hv, jsCoalesce_of_ne_null hvn]
  · intro hb v hv hvn
    simp [normaliseFields, jsCoalesce_of_nullish hb, hv, jsCoalesce_of_ne_null hvn]
  · intro hb hs
    simp [normaliseFields, jsCoalesce_of_nullish hb, jsCoalesce_of_nullish hs, jsToString]

/-- Witness for C4: `{ "selftext": "hello" }` with no `body` field
normalises to body `"hello"`. -/
theorem body_field_fallback_witness :
    (normaliseFields (Json.obj [("selftext", Json.str "hello")])).body = "hello" :=
  (body_field_fallback (Json.obj [("selftext", Json.str "hello")])
      (normaliseFields (Json.obj [("selftext", Json.str "hello")])) rfl).2.1
    rfl (Json.str "hello") rfl (by simp)

/-! ## Claim C5: numeric-only score and created_utc -/

/-- C5: the normalised `score` is the source `score` exactly when that
value is numeric and the `null` absent-marker otherwise (in particular for
a text value such as "5"); `created_utc` is the source `created_utc` when
numeric, else the source `created` when numeric, else the absent-marker. -/
theorem score_created_utc_numeric :
    ∀ (c : Json) (r : NormalisedComment), normaliseItem c = .ok r →
      (∀ q : ℚ, c.jsGet "score" = some (Json.num q) → r.score = some q) ∧
      ((∀ q : ℚ, c.jsGet "score" ≠ some (Json.num q)) → r.score = none) ∧
      (∀ q : ℚ, c.jsGet "created_utc" = some (Json.num q) → r.created_utc = some q) ∧
      ((∀ q : ℚ, c.jsGet "created_utc" ≠ some (Json.num q)) →
        ∀ q : ℚ, c.jsGet "created" = some (Json.num q) → r.created_utc = some q) ∧
      ((∀ q : ℚ, c.jsGet "created_utc" ≠ some (Json.num q)) →
        (∀ q : ℚ, c.jsGet "created" ≠ some (Json.num q)) → r.created_utc = none) := by
  intro c r h
  obtain ⟨_hc, rfl⟩ := normaliseItem_ok_iff.mp h
  refine ⟨?_, ?_, ?_, ?_, ?_⟩
  · intro q hq
    simp [normaliseFields, hq]
  · intro hnone
    cases hs : c.jsGet "score" with
    | none => simp [normaliseFields, hs]
    | some v =>
      cases v <;> simp [normaliseFields, hs]
      exact absurd hs (hnone _)
  · intro q hq
    simp [normaliseFields, hq]
  · intro hcu q hq
    cases hs : c.jsGet "created_utc" with
    | none => simp [normaliseFields, hs, hq]
    | some v =>
      cases v <;> simp [normaliseFields, hs, hq]
      exact absurd hs (hcu _)
  · intro hcu hcr
    cases hs : c.jsGet "created_utc" with
    | none =>
      cases hs2 : c.jsGet "created" with
      | none => simp [normaliseFields, hs, hs2]
      | some v =>
        cases v <;> simp [normaliseFields, hs, hs2]
        exact absurd hs2 (hcr _)
    | some v =>
      cases v with
      | num q => exact absurd hs (hcu q)
      | _ =>
        cases hs2 : c.jsGet "created" with
        | none => simp [normaliseFields, hs, hs2]
        | some w =>
          cases w <;> simp [normaliseFields, hs, hs2]
          exact absurd hs2 (hcr _)

/-! ## Claim C6: authentication -/

/-- C6: with both secrets configured non-empty, a POST whose `x-mcp-key`
header is missing or differs from the configured key is answered 401.  The
response is the same for every request body and every upstream outcome, so
no body parsing, schema validation or upstream call contributes to it. -/
theorem auth_mismatch_401 :
    ∀ (u k : String) (mk : Option String) (body : Except String Json)
      (up : UpstreamOutcome),
      u ≠ "" → k ≠ "" →
      (mk = none ∨ ∃ h, mk = some h ∧ h ≠ k) →
      handler ⟨some u, some k⟩ ⟨"POST", mk, body⟩ up =
        ⟨401, errBody "Unauthorised."⟩ := by
  intro u k mk body up hu hk hmk
  rcases hmk with rfl | ⟨h, rfl, hne⟩
  · simp [handler, strFalsy, hu, hk]
  · simp [handler, strFalsy, hu, hk, hne]

/-- Witness for C6: a wrong key is rejected 401. -/
theorem auth_mismatch_401_witness :
    handler ⟨some "u", some "k"⟩ ⟨"POST", some "wrong", .ok Json.null⟩
        (.networkError "down") = ⟨401, errBody "Unauthorised."⟩ :=
  auth_mismatch_401 "u" "k" (some "wrong") (.ok Json.null) (.networkError "down")
    (by decide) (by decide) (.inr ⟨"wrong", rfl, by decide⟩)

/-! ## Claim C7: upstream non-success -/

/-- C7: when every stage before the upstream call passes and the upstream
reports a non-success status, the handler answers 502, the body carries the
upstream's status code, and the diagnostic detail is the upstream text
truncated to at most 500 units. -/
theorem upstream_error_502 :
    ∀ (u k : String) (body : Json) (rb : RequestBody) (status : Nat)
      (text : List Char) (js : Except String Json),
      u ≠ "" → k ≠ "" →
      parseRequest body = .ok rb →
      statusOk status = false →
      handler ⟨some u, some k⟩ ⟨"POST", some k, .ok body⟩ (.response status text js) =
        ⟨502, upstreamErrBody status ⟨text.take 500⟩⟩ ∧
      Json.jsGet (upstreamErrBody status ⟨text.take 500⟩) "status" =
        some (Json.num status) ∧
      (String.mk (text.take 500)).length ≤ 500 := by
  intro u k body rb status text js hu hk hp hst
  refine ⟨?_, rfl, ?_⟩
  · simp [handler, strFalsy, hu, hk, hp, hst]
  · show (text.take 500).length ≤ 500
    rw [List.length_take]
    exact min_le_left _ _

/-- Witness for C7 at upstream status 503. -/
theorem upstream_error_502_witness :
    handler ⟨some "u", some "k"⟩ ⟨"POST", some "k", .ok validBodyEx⟩
        (.response 503 ("upstream down".data) (.error "x")) =
      ⟨502, upstreamErrBody 503 ⟨("upstream down".data).take 500⟩⟩ ∧
    Json.jsGet (upstreamErrBody 503 ⟨("upstream down".data).take 500⟩) "status" =
      some (Json.num 503) ∧
    (String.mk (("upstream down".data).take 500)).length ≤ 500 :=
  upstream_error_502 "u" "k" validBodyEx ⟨"movies", "oscars", 50, none, none⟩ 503
    ("upstream down".data) (.error "x") (by decide) (by decide) rfl rfl

/-! ## Claim C10: empty-string secrets -/

/-- C10: an empty-string secret is falsy in the configuration checks, which
run before the credential header is examined: every POST under such a
configuration is answered 500 (server misconfiguration) and never 401,
whatever the `x-mcp-key` header holds. -/
theorem empty_secret_500 :
    ∀ (cfg : Config) (mk : Option String) (body : Except String Json)
      (up : UpstreamOutcome),
      cfg.bridgeUrl = some "" ∨ cfg.apiKey = some "" →
      (handler cfg ⟨"POST", mk, body⟩ up).status = 500 ∧
      (handler cfg ⟨"POST", mk, body⟩ up).status ≠ 401 := by
  intro cfg mk body up hcfg
  obtain ⟨bu, ak⟩ := cfg
  have h500 : (handler ⟨bu, ak⟩ ⟨"POST", mk, body⟩ up).status = 500 := by
    rcases hcfg with hb | ha
    · simp only at hb
      subst hb
      simp [handler, strFalsy]
    · simp only at ha
      subst ha
      cases hbu : strFalsy bu with
      | true => simp [handler, hbu]
      | false =>
        simp [handler, hbu, strFalsy]
        split <;> rfl
  exact ⟨h500, by rw [h500]; decide⟩

/-- Witness for C10: an empty bridge URL with a "matching" key yields 500. -/
theorem empty_secret_500_witness :
    (handler ⟨some "", some "k"⟩ ⟨"POST", some "k", .ok Json.null⟩
        (.networkError "down")).status = 500 ∧
    (handler ⟨some "", some "k"⟩ ⟨"POST", some "k", .ok Json.null⟩
        (.networkError "down")).status ≠ 401 :=
  empty_secret_500 ⟨some "", some "k"⟩ (some "k") (.ok Json.null)
    (.networkError "down") (.inl rfl)

/-! ## Claim C1: container extraction on non-list values -/

/-- C1 fails on the code as stated: the container probe is nullish
coalescing, not a list check.  At the payload `{"comments": 5}` none of the
three keys holds a list, yet the non-null `5` is selected, `.map` on it
throws, and the handler answers 500 — not 200 with `count` 0. -/
theorem nonlist_container_throws :
    normalise (Json.obj [("comments", Json.num 5)]) =
      .error "rawComments.map is not a function" ∧
    handler cfgEx reqEx
        (.response 200 [] (.ok (Json.obj [("comments", Json.num 5)]))) =
      ⟨500, unexpectedBody "rawComments.map is not a function"⟩ :=
  ⟨rfl, rfl⟩

/-- C1 amended: when each of the three container keys is absent or null,
normalisation yields the empty list and the handler answers 200 with a
body whose `count` is 0. -/
theorem empty_container_safety :
    ∀ (p : Json) (u k : String) (body : Json) (rb : RequestBody)
      (status : Nat) (text : List Char),
      Json.isNullish (p.jsGet "comments") = true →
      Json.isNullish (p.jsGet "data") = true →
      Json.isNullish (p.jsGet "results") = true →
      u ≠ "" → k ≠ "" →
      parseRequest body = .ok rb →
      statusOk status = true →
      normalise p = .ok [] ∧
      handler ⟨some u, some k⟩ ⟨"POST", some k, .ok body⟩
          (.response status text (.ok p)) = ⟨200, successBody []⟩ ∧
      Json.jsGet (successBody []) "count" = some (Json.num 0) := by
  intro p u k body rb status text h1 h2 h3 hu hk hp hst
  have hn : normalise p = .ok [] := by
    simp [normalise, rawComments, jsCoalesce_of_nullish h1, jsCoalesce_of_nullish h2,
      jsCoalesce_of_nullish h3, normaliseList]
  refine ⟨hn, ?_, ?_⟩
  · simp [handler, strFalsy, hu, hk, hp, hst, hn]
  · simp [successBody, Json.jsGet]

/-- Witness for the amended C1 at the payload `{}`. -/
theorem empty_container_safety_witness :
    normalise (Json.obj []) = .ok [] ∧
    handler ⟨some "u", some "k"⟩ ⟨"POST", some "k", .ok validBodyEx⟩
        (.response 200 [] (.ok (Json.obj []))) = ⟨200, successBody []⟩ ∧
    Json.jsGet (successBody []) "count" = some (Json.num 0) :=
  empty_container_safety (Json.obj []) "u" "k" validBodyEx
    ⟨"movies", "oscars", 50, none, none⟩ 200 [] rfl rfl rfl (by decide) (by decide)
    rfl rfl

/-! ## Claim C2: per-item mapping totality -/

/-- C2 fails on the code as stated: a `null` item in the extracted list
makes the per-item mapping throw (property access on `null`), so the
normaliser fails and the handler answers 500 at `{"comments": [null]}`. -/
theorem null_item_throws :
    normaliseItem Json.null = .error "Cannot read properties of null" ∧
    normalise (Json.obj [("comments", Json.arr [Json.null])]) =
      .error "Cannot read properties of null" ∧
    (handler cfgEx reqEx
        (.response 200 [] (.ok (Json.obj [("comments", Json.arr [Json.null])])))).status
      = 500 :=
  ⟨rfl, rfl, rfl⟩

/-- C2 amended: the per-item mapping is total on every non-null JSON item
(numbers, text, booleans, lists and objects with arbitrarily-typed or
missing fields), and a list of such items always normalises, element-wise. -/
theorem item_mapping_total_on_nonnull :
    (∀ c : Json, c ≠ Json.null → normaliseItem c = .ok (normaliseFields c)) ∧
    (∀ xs : List Json, (∀ c ∈ xs, c ≠ Json.null) →
      normaliseList xs = .ok (xs.map normaliseFields)) :=
  ⟨fun _ hc => normaliseItem_ok_iff.mpr ⟨hc, rfl⟩,
   fun _ hxs => normaliseList_ok_iff.mpr ⟨hxs, rfl⟩⟩

/-- Witness for the amended C2 on a heterogeneous item list. -/
theorem item_mapping_total_on_nonnull_witness :
    normaliseList [Json.num 1, Json.bool true, Json.obj [("body", Json.num 7)]] =
      .ok
        [ normaliseFields (Json.num 1)
        , normaliseFields (Json.bool true)
        , normaliseFields (Json.obj [("body", Json.num 7)]) ] :=
  item_mapping_total_on_nonnull.2
    [Json.num 1, Json.bool true, Json.obj [("body", Json.num 7)]]
    (by intro c hc; fin_cases hc <;> simp)

/-! ## Claim C9: output shape and ordering -/

/-- `Object.keys` of a serialised JSON object. -/
def objKeys : Json → List String
  | .obj fields => fields.map Prod.fst
  | _ => []

/-- C9: a successful normalisation maps the upstream list element-wise in
the original order (same length, i-th output from the i-th input, no
sorting or deduplication), and every serialised output record carries
exactly the seven fields, each holding a value of its declared type or the
JSON-null absent-marker — never omitted, never of another type. -/
theorem output_shape_and_order :
    (∀ (xs : List Json) (rs : List NormalisedComment),
      normaliseList xs = .ok rs →
      rs.length = xs.length ∧
      ∀ i : Nat, rs[i]? = (xs[i]?).map normaliseFields) ∧
    (∀ r : NormalisedComment,
      objKeys (commentToJson r) =
        ["id", "author", "body", "score", "created_utc", "permalink", "subreddit"] ∧
      (∃ s, Json.jsGet (commentToJson r) "id" = some (Json.str s)) ∧
      ((∃ s, Json.jsGet (commentToJson r) "author" = some (Json.str s)) ∨
        Json.jsGet (commentToJson r) "author" = some Json.null) ∧
      (∃ s, Json.jsGet (commentToJson r) "body" = some (Json.str s)) ∧
      ((∃ q, Json.jsGet (commentToJson r) "score" = some (Json.num q)) ∨
        Json.jsGet (commentToJson r) "score" = some Json.null) ∧
      ((∃ q, Json.jsGet (commentToJson r) "created_utc" = some (Json.num q)) ∨
        Json.jsGet (commentToJson r) "created_utc" = some Json.null) ∧
      ((∃ s, Json.jsGet (commentToJson r) "permalink" = some (Json.str s)) ∨
        Json.jsGet (commentToJson r) "permalink" = some Json.null) ∧
      ((∃ s, Json.jsGet (commentToJson r) "subreddit" = some (Json.str s)) ∨
        Json.jsGet (commentToJson r) "subreddit" = some Json.null)) := by
  constructor
  · intro xs rs h
    obtain ⟨_h1, rfl⟩ := normaliseList_ok_iff.mp h
    refine ⟨List.length_map _ _, ?_⟩
    intro i
    simp [List.getElem?_map]
  · intro r
    obtain ⟨i0, a0, b0, s0, c0, p0, su0⟩ := r
    refine ⟨rfl, ⟨i0, rfl⟩, ?_, ⟨b0, rfl⟩, ?_, ?_, ?_, ?_⟩
    · cases a0 with
      | none => exact .inr rfl
      | some s => exact .inl ⟨s, rfl⟩
    · cases s0 with
      | none => exact .inr rfl
      | some q => exact .inl ⟨q, rfl⟩
    · cases c0 with
      | none => exact .inr rfl
      | some q => exact .inl ⟨q, rfl⟩
    · cases p0 with
      | none => exact .inr rfl
      | some s => exact .inl ⟨s, rfl⟩
    · cases su0 with
      | none => exact .inr rfl
      | some s => exact .inl ⟨s, rfl⟩

/-- Witness for C9 at a two-element upstream list. -/
theorem output_shape_and_order_witness :
    [normaliseFields (Json.num 1), normaliseFields (Json.str "a")][1]? =
      ([Json.num 1, Json.str "a"][1]?).map normaliseFields :=
  (output_shape_and_order.1 [Json.num 1, Json.str "a"]
      [normaliseFields (Json.num 1), normaliseFields (Json.str "a")] rfl).2 1

/-! ## Claim C8: schema validation -/

lemma checkNonEmptyString_ok {f : String} {v : Option Json} {s : String}
    (h : checkNonEmptyString f v = .ok s) : 1 ≤ s.length := by
  cases v with
  | none => simp [checkNonEmptyString] at h
  | some w =>
    cases w with
    | str t =>
      simp only [checkNonEmptyString] at h
      split at h
      · cases h
        omega
      · cases h
    | _ => simp [checkNonEmptyString] at h

lemma checkSize_ok {v : Option Json} {z : ℤ} (h : checkSize v = .ok z) :
    1 ≤ z ∧ z ≤ 500 := by
  cases v with
  | none =>
    simp [checkSize] at h
    omega
  | some w =>
    cases w with
    | num q =>
      by_cases hd : q.den = 1 <;> by_cases hlo : q < 1 <;> by_cases hhi : q > 500 <;>
        simp [checkSize, hd, hlo, hhi] at h
      have hq : (q.num : ℚ) = q := Rat.coe_int_num_of_den_eq_one hd
      rw [← h]
      constructor
      · have : (1 : ℚ) ≤ (q.num : ℚ) := by rw [hq]; exact not_lt.mp hlo
        exact_mod_cast this
      · have : (q.num : ℚ) ≤ (500 : ℚ) := by rw [hq]; exact not_lt.mp hhi
        exact_mod_cast this
    | _ => simp [checkSize] at h

lemma checkSize_none_ok : checkSize none = .ok 50 := rfl

lemma checkNonEmptyString_error_ne_nil {f : String} {v : Option Json} {is : List Issue}
    (h : checkNonEmptyString f v = .error is) : is ≠ [] := by
  cases v with
  | none => simp [checkNonEmptyString] at h; simp [← h]
  | some w =>
    cases w with
    | str t =>
      simp only [checkNonEmptyString] at h
      split at h
      · cases h
      · cases h
        simp
    | _ => simp [checkNonEmptyString] at h <;> simp [← h]

lemma checkSize_error_ne_nil {v : Option Json} {is : List Issue}
    (h : checkSize v = .error is) : is ≠ [] := by
  cases v with
  | none => simp [checkSize] at h
  | some w =>
    cases w with
    | num q =>
      by_cases hd : q.den = 1 <;> by_cases hlo : q < 1 <;> by_cases hhi : q > 500 <;>
        simp [checkSize, hd, hlo, hhi] at h <;> simp [← h]
    | _ => simp [checkSize] at h <;> simp [← h]

lemma checkOptionalInt_error_ne_nil {f : String} {v : Option Json} {is : List Issue}
    (h : checkOptionalInt f v = .error is) : is ≠ [] := by
  cases v with
  | none => simp [checkOptionalInt] at h
  | some w =>
    cases w with
    | num q =>
      simp only [checkOptionalInt] at h
      split at h
      · cases h
      · cases h
        simp
    | _ => simp [checkOptionalInt] at h <;> simp [← h]

lemma parseRequest_ok {j : Json} {r : RequestBody} (h : parseRequest j = .ok r) :
    1 ≤ r.size ∧ r.size ≤ 500 ∧ 1 ≤ r.subreddit.length ∧ 1 ≤ r.query.length := by
  obtain ⟨rs0, rq0, rz0, rb0, ra0⟩ := r
  cases j with
  | obj fields =>
    simp only [parseRequest] at h
    cases hs : checkNonEmptyString "subreddit" ((Json.obj fields).jsGet "subreddit") <;>
    cases hq : checkNonEmptyString "query" ((Json.obj fields).jsGet "query") <;>
    cases hz : checkSize ((Json.obj fields).jsGet "size") <;>
    cases hb : checkOptionalInt "before" ((Json.obj fields).jsGet "before") <;>
    cases ha : checkOptionalInt "after" ((Json.obj fields).jsGet "after") <;>
      rw [hs, hq, hz, hb, ha] at h <;> simp at h
    obtain ⟨h1, h2, h3, h4, h5⟩ := h
    subst h1
    subst h2
    subst h3
    exact ⟨(checkSize_ok hz).1, (checkSize_ok hz).2,
      checkNonEmptyString_ok hs, checkNonEmptyString_ok hq⟩
  | null => simp [parseRequest] at h
  | bool b => simp [parseRequest] at h
  | num q => simp [parseRequest] at h
  | str s => simp [parseRequest] at h
  | arr xs => simp [parseRequest] at h

lemma parseRequest_size_default {j : Json} {r : RequestBody}
    (hsz : Json.jsGet j "size" = none) (h : parseRequest j = .ok r) : r.size = 50 := by
  obtain ⟨rs0, rq0, rz0, rb0, ra0⟩ := r
  cases j with
  | obj fields =>
    simp only [parseRequest, hsz, checkSize_none_ok] at h
    cases hs : checkNonEmptyString "subreddit" ((Json.obj fields).jsGet "subreddit") <;>
    cases hq : checkNonEmptyString "query" ((Json.obj fields).jsGet "query") <;>
    cases hb : checkOptionalInt "before" ((Json.obj fields).jsGet "before") <;>
    cases ha : checkOptionalInt "after" ((Json.obj fields).jsGet "after") <;>
      rw [hs, hq, hb, ha] at h <;> simp at h
    exact h.2.2.1.symm
  | null => simp [parseRequest] at h
  | bool b => simp [parseRequest] at h
  | num q => simp [parseRequest] at h
  | str s => simp [parseRequest] at h
  | arr xs => simp [parseRequest] at h

lemma parseRequest_error_ne_nil {j : Json} {is : List Issue}
    (h : parseRequest j = .error is) : is ≠ [] := by
  cases j with
  | obj fields =>
    simp only [parseRequest] at h
    cases hs : checkNonEmptyString "subreddit" ((Json.obj fields).jsGet "subreddit") <;>
    cases hq : checkNonEmptyString "query" ((Json.obj fields).jsGet "query") <;>
    cases hz : checkSize ((Json.obj fields).jsGet "size") <;>
    cases hb : checkOptionalInt "before" ((Json.obj fields).jsGet "before") <;>
    cases ha : checkOptionalInt "after" ((Json.obj fields).jsGet "after") <;>
      rw [hs, hq, hz, hb, ha] at h <;> simp [issuesOf] at h <;>
      (try subst h) <;>
      apply List.ne_nil_of_length_pos <;>
      (try have p1 := List.length_pos.mpr (checkNonEmptyString_error_ne_nil hs)) <;>
      (try have p2 := List.length_pos.mpr (checkNonEmptyString_error_ne_nil hq)) <;>
      (try have p3 := List.length_pos.mpr (checkSize_error_ne_nil hz)) <;>
      (try have p4 := List.length_pos.mpr (checkOptionalInt_error_ne_nil hb)) <;>
      (try have p5 := List.length_pos.mpr (checkOptionalInt_error_ne_nil ha)) <;>
      simp [List.length_append] <;> omega
  | null => simp [parseRequest] at h; simp [← h]
  | bool b => simp [parseRequest] at h; simp [← h]
  | num q => simp [parseRequest] at h; simp [← h]
  | str s => simp [parseRequest] at h; simp [← h]
  | arr xs => simp [parseRequest] at h; simp [← h]

/-- C8: for every parseable JSON body the schema requires non-empty
`subreddit` and `query` text and an integer `size` in [1,500], defaulting
to 50 when omitted; a successfully validated request always has `size`
within [1,500], and any violation makes the handler answer 400 carrying
the non-empty structured issues list (field path plus reason). -/
theorem request_validation :
    (∀ (j : Json) (r : RequestBody), parseRequest j = .ok r →
      1 ≤ r.size ∧ r.size ≤ 500 ∧ 1 ≤ r.subreddit.length ∧ 1 ≤ r.query.length) ∧
    (∀ (j : Json) (r : RequestBody), Json.jsGet j "size" = none →
      parseRequest j = .ok r → r.size = 50) ∧
    (∀ (j : Json) (is : List Issue), parseRequest j = .error is → is ≠ []) ∧
    (∀ (u k : String) (body : Json) (is : List Issue) (up : UpstreamOutcome),
      u ≠ "" → k ≠ "" → parseRequest body = .error is →
      handler ⟨some u, some k⟩ ⟨"POST", some k, .ok body⟩ up =
        ⟨400, invalidBody is⟩) := by
  refine ⟨fun j r h => parseRequest_ok h,
    fun j r hsz h => parseRequest_size_default hsz h,
    fun j is h => parseRequest_error_ne_nil h, ?_⟩
  intro u k body is up hu hk hp
  simp [handler, strFalsy, hu, hk, hp]

/-- Witness for C8: the valid body `{subreddit:"movies", query:"oscars"}`
validates with the default size 50, inside the bounds. -/
theorem request_validation_witness :
    1 ≤ (50 : ℤ) ∧ (50 : ℤ) ≤ 500 ∧
      1 ≤ ("movies" : String).length ∧ 1 ≤ ("oscars" : String).length :=
  request_validation.1 validBodyEx ⟨"movies", "oscars", 50, none, none⟩ rfl

/-- Witness for C5: a textual score `"5"` yields the absent-marker, while
a numeric `created` falls back into `created_utc`. -/
theorem score_created_utc_numeric_witness :
    (normaliseFields (Json.obj [("score", Json.str "5"), ("created", Json.num 3)])).score
        = none ∧
    (normaliseFields
        (Json.obj [("score", Json.str "5"), ("created", Json.num 3)])).created_utc
      = some 3 :=
  ⟨(score_created_utc_numeric (Json.obj [("score", Json.str "5"), ("created", Json.num 3)])
      (normaliseFields (Json.obj [("score", Json.str "5"), ("created", Json.num 3)]))
      rfl).2.1
    (by intro q hq; simp [Json.jsGet] at hq),
   (score_created_utc_numeric (Json.obj [("score", Json.str "5"), ("created", Json.num 3)])
      (normaliseFields (Json.obj [("score", Json.str "5"), ("created", Json.num 3)]))
      rfl).2.2.2.1
    (by intro q hq; simp [Json.jsGet] at hq) 3 rfl⟩
